import Mathlib

/-! Formal model of the ZenB rust core (src/rust-core/lib.rs): the session
runtime actor, the safety monitor (LTL-style verifier) and the PID feedback
controller, together with verified properties of the command handling.
Machine floats (f32) are modelled as rationals; the non-finite float values
that the PID controller explicitly guards against are modelled by the
dedicated type FVal. -/

namespace ZenB

/-- Runtime status, from `enum FfiRuntimeStatus`. -/
inductive FfiRuntimeStatus where
  | idle
  | running
  | paused
  | safetyLock
deriving DecidableEq

/-- Breathing phase, from `enum FfiPhase`. -/
inductive FfiPhase where
  | inhale
  | holdIn
  | exhale
  | holdOut
deriving DecidableEq

/-- Belief mode, from `enum FfiBeliefMode`. -/
inductive FfiBeliefMode where
  | calm
  | stress
  | focus
  | sleepy
  | energize
deriving DecidableEq

/-- Violation severity, from `enum FfiViolationSeverity`. -/
inductive FfiViolationSeverity where
  | warning
  | error
  | critical
deriving DecidableEq

/-- Event kinds checked by the safety monitor, from `enum FfiKernelEventType`. -/
inductive FfiKernelEventType where
  | startSession
  | stopSession
  | loadPattern
  | adjustTempo
  | emergencyHalt
  | tick
  | phaseChange
  | cycleComplete
deriving DecidableEq

/-- Belief summary, from `struct FfiBeliefState`. -/
structure FfiBeliefState where
  probabilities : List ℚ
  confidence : ℚ
  mode : FfiBeliefMode
  uncertainty : ℚ
deriving DecidableEq

/-- Safety summary, from `struct FfiSafetyStatus`. -/
structure FfiSafetyStatus where
  isLocked : Bool
  traumaCount : ℕ
  tempoBounds : List ℚ
  hrBounds : List ℚ
deriving DecidableEq

/-- Resonance metrics, from `struct FfiResonance`. -/
structure FfiResonance where
  coherenceScore : ℚ
  phaseLocking : ℚ
  rhythmAlignment : ℚ
deriving DecidableEq

/-- Published runtime snapshot, from `struct FfiRuntimeState`. -/
structure FfiRuntimeState where
  status : FfiRuntimeStatus
  patternId : String
  phase : FfiPhase
  phaseProgress : ℚ
  cyclesCompleted : ℕ
  sessionDurationSec : ℚ
  tempoScale : ℚ
  belief : FfiBeliefState
  resonance : FfiResonance
  safety : FfiSafetyStatus
deriving DecidableEq

/-- Frame snapshot, from `struct FfiFrame`. -/
structure FfiFrame where
  phase : FfiPhase
  phaseProgress : ℚ
  cyclesCompleted : ℕ
  heartRate : Option ℚ
  signalQuality : ℚ
  belief : FfiBeliefState
  resonance : FfiResonance
deriving DecidableEq

/-- Session statistics, from `struct FfiSessionStats`. -/
structure FfiSessionStats where
  durationSec : ℚ
  cyclesCompleted : ℕ
  patternId : String
  avgHeartRate : Option ℚ
  finalBelief : FfiBeliefState
  avgResonance : ℚ
deriving DecidableEq

/-- Error taxonomy, from `enum ZenOneError`. -/
inductive ZenOneError where
  | patternNotFound
  | sessionNotActive
  | safetyViolation (msg : String)
  | configError (msg : String)
deriving DecidableEq

/-- Rust `f32::clamp` semantics: `if self < min then min else if self > max then max else self`. -/
def rustClamp (x lo hi : ℚ) : ℚ :=
  if x < lo then lo else if hi < x then hi else x

/-- Model of an f32 value passed as `dt` to the PID controller: either a
finite value (a rational) or one of the non-finite float values NaN and
the two infinities, which the source rejects via `dt.is_finite()`. -/
inductive FVal where
  | fin (q : ℚ)
  | nan
  | inf
  | negInf
deriving DecidableEq

/-- Rust `is_finite` on the modelled float. -/
def FVal.isFinite : FVal → Bool
  | .fin _ => true
  | _ => false

/-- Rust comparison `dt <= 0.0` on the modelled float (false for NaN). -/
def FVal.leZero : FVal → Bool
  | .fin q => decide (q ≤ 0)
  | .nan => false
  | .inf => false
  | .negInf => true

/-- Finite value of the modelled float (junk value 0 for non-finite). -/
def FVal.toRat : FVal → ℚ
  | .fin q => q
  | _ => 0

/-- PID configuration, from `struct FfiPidConfig`. -/
structure FfiPidConfig where
  kp : ℚ
  ki : ℚ
  kd : ℚ
  integralMax : ℚ
  outputMin : ℚ
  outputMax : ℚ
  derivativeAlpha : ℚ
deriving DecidableEq

/-- Default tuned gains, from `impl Default for FfiPidConfig`. -/
def FfiPidConfig.default : FfiPidConfig :=
  { kp := 3/1000, ki := 2/10000, kd := 8/1000, integralMax := 5,
    outputMin := -(3/5), outputMax := 2/5, derivativeAlpha := 3/20 }

/-- PID controller state, from `struct PidControllerInner`. -/
structure PidControllerInner where
  config : FfiPidConfig
  integral : ℚ
  lastError : ℚ
  lastDerivative : ℚ
  lastP : ℚ
  lastI : ℚ
  lastD : ℚ
deriving DecidableEq

/-- Constructor, from `PidController::with_config`. -/
def PidController.withConfig (config : FfiPidConfig) : PidControllerInner :=
  { config := config, integral := 0, lastError := 0, lastDerivative := 0,
    lastP := 0, lastI := 0, lastD := 0 }

/-- Constructor, from `PidController::new`. -/
def PidController.new : PidControllerInner :=
  PidController.withConfig .default

/-- Factory, from `create_tempo_controller`. -/
def createTempoController : PidControllerInner :=
  PidController.withConfig
    { kp := 3/1000, ki := 2/10000, kd := 8/1000, integralMax := 5,
      outputMin := -(3/5), outputMax := 2/5, derivativeAlpha := 3/20 }

/-- Control-law step, from `PidController::compute`: rejects non-positive or
non-finite `dt` by returning 0 with the state untouched; otherwise computes
the P, anti-windup-clamped I and low-pass-filtered D terms and clamps the
sum to the output bounds. Returns the output together with the new state. -/
def PidController.compute (inner : PidControllerInner) (error : ℚ) (dt : FVal) :
    ℚ × PidControllerInner :=
  if dt.leZero || !dt.isFinite then (0, inner)
  else
    let dtq := dt.toRat
    let lastP := inner.config.kp * error
    let integral := rustClamp (inner.integral + error * dtq)
      (-inner.config.integralMax) inner.config.integralMax
    let lastI := inner.config.ki * integral
    let rawDerivative := (error - inner.lastError) / dtq
    let lastDerivative := inner.config.derivativeAlpha * rawDerivative
      + (1 - inner.config.derivativeAlpha) * inner.lastDerivative
    let lastD := inner.config.kd * lastDerivative
    let output := lastP + lastI + lastD
    let clamped := rustClamp output inner.config.outputMin inner.config.outputMax
    (clamped, { config := inner.config, integral := integral, lastError := error,
                lastDerivative := lastDerivative, lastP := lastP, lastI := lastI,
                lastD := lastD })

/-- State reset, from `PidController::reset`. -/
def PidController.reset (inner : PidControllerInner) : PidControllerInner :=
  { inner with integral := 0, lastError := 0, lastDerivative := 0,
               lastP := 0, lastI := 0, lastD := 0 }

/-- Gain update, from `PidController::set_gains`. -/
def PidController.setGains (inner : PidControllerInner)
    (kp ki kd : Option ℚ) : PidControllerInner :=
  let c1 := match kp with | some p => { inner.config with kp := p } | none => inner.config
  let c2 := match ki with | some i => { c1 with ki := i } | none => c1
  let c3 := match kd with | some d => { c2 with kd := d } | none => c2
  { inner with config := c3 }

/-- C8: for every finite dt strictly greater than 0, `reset()` followed by
`compute(0, dt)` returns exactly 0.  Stated for every controller state whose
configuration has output bounds containing 0 and a nonnegative anti-windup
bound, which holds for the default tuned gains and the tempo controller. -/
theorem c8_pid_reset_compute_zero (st : PidControllerInner) (q : ℚ)
    (hq : 0 < q)
    (hmin : st.config.outputMin ≤ 0)
    (hmax : 0 ≤ st.config.outputMax)
    (hint : 0 ≤ st.config.integralMax) :
    (PidController.compute (PidController.reset st) 0 (.fin q)).1 = 0 := by
  have hguard : ((FVal.fin q).leZero || !(FVal.fin q).isFinite) = false := by
    simp [FVal.leZero, FVal.isFinite, not_le.mpr hq]
  simp only [PidController.compute, PidController.reset, hguard, Bool.false_eq_true,
    if_false, FVal.toRat]
  have hI : rustClamp ((0 : ℚ) + 0 * q) (-st.config.integralMax) st.config.integralMax = 0 := by
    unfold rustClamp
    rw [if_neg (by linarith), if_neg (by linarith)]
    ring
  simp only [hI]
  have h0 : st.config.kp * 0 + st.config.ki * 0 +
      st.config.kd * (st.config.derivativeAlpha * ((0 - 0) / q) +
        (1 - st.config.derivativeAlpha) * 0) = 0 := by ring
  rw [h0]
  unfold rustClamp
  rw [if_neg (by linarith), if_neg (by linarith)]

/-- Witness for C8 at the default configuration with dt = 1. -/
theorem c8_pid_reset_compute_zero_witness :
    (PidController.compute (PidController.reset PidController.new) 0 (.fin 1)).1 = 0 :=
  c8_pid_reset_compute_zero PidController.new 1 (by norm_num)
    (by norm_num [PidController.new, PidController.withConfig, FfiPidConfig.default])
    (by norm_num [PidController.new, PidController.withConfig, FfiPidConfig.default])
    (by norm_num [PidController.new, PidController.withConfig, FfiPidConfig.default])

/-- C9: for every error value and every dt that is non-positive or non-finite
(including NaN), `compute(error, dt)` returns 0 and leaves the controller
state (integral, last error, filtered derivative, cached terms and gains)
completely unchanged. -/
theorem c9_pid_rejects_bad_dt (st : PidControllerInner) (e : ℚ) (dt : FVal)
    (h : (dt.leZero || !dt.isFinite) = true) :
    PidController.compute st e dt = (0, st) := by
  unfold PidController.compute
  rw [if_pos h]

/-- Witness for C9 at dt = NaN. -/
theorem c9_pid_rejects_bad_dt_witness :
    PidController.compute PidController.new 5 .nan = (0, PidController.new) :=
  c9_pid_rejects_bad_dt PidController.new 5 .nan (by decide)

/-- An event checked by the safety monitor, from `struct FfiKernelEvent`. -/
structure FfiKernelEvent where
  eventType : FfiKernelEventType
  timestampMs : ℤ
  payload : Option String
deriving DecidableEq

/-- A recorded safety violation, from `struct FfiSafetyViolation`. -/
structure FfiSafetyViolation where
  specName : String
  description : String
  severity : FfiViolationSeverity
  timestampMs : ℤ
  correctiveAction : Option String
deriving DecidableEq

/-- Result of a safety check, from `struct FfiSafetyCheckResult`. -/
structure FfiSafetyCheckResult where
  isSafe : Bool
  violations : List FfiSafetyViolation
  correctedEvent : Option FfiKernelEvent
deriving DecidableEq

/-- Safety monitor state, from `struct SafetyMonitorInner`. -/
structure SafetyMonitorInner where
  trace : List FfiKernelEvent
  violations : List FfiSafetyViolation
  lastTempo : ℚ
  lastTempoChangeMs : ℤ
  lastPatternChangeMs : ℤ
  maxTraceSize : ℕ
deriving DecidableEq

/-- Fresh monitor, from `SafetyMonitor::new`. -/
def SafetyMonitor.new : SafetyMonitorInner :=
  { trace := [], violations := [], lastTempo := 1, lastTempoChangeMs := 0,
    lastPatternChangeMs := 0, maxTraceSize := 100 }

/-- Bounded trace append: `push_back` then `pop_front` past capacity,
from the start of `SafetyMonitor::check_event`. -/
def pushTrace (tr : List FfiKernelEvent) (maxSize : ℕ) (ev : FfiKernelEvent) :
    List FfiKernelEvent :=
  let t := tr ++ [ev]
  if maxSize < t.length then t.drop 1 else t

/-- Whether an emergency halt appears among the last 10 trace entries,
from the `has_recent_halt` computation in spec 5 of `check_event`. -/
def recentHalt (tr : List FfiKernelEvent) : Bool :=
  (tr.reverse.take 10).any fun e => e.eventType == .emergencyHalt

/-- Safety spec 1 (tempo bounds) of `check_event`: tempo scale must lie in
[0.8, 1.4]; severity Error. -/
def spec1Violations (rs : FfiRuntimeState) (ts : ℤ) : List FfiSafetyViolation :=
  if rs.tempoScale < 0.8 ∨ 1.4 < rs.tempoScale then
    [{ specName := "tempo_bounds",
       description := "Tempo " ++ toString rs.tempoScale ++ " outside safe range [0.8, 1.4]",
       severity := .error, timestampMs := ts,
       correctiveAction := some "Clamp tempo to safe range" }]
  else []

/-- Safety spec 2 (safety-lock immutability) of `check_event`: while status is
SafetyLock a StartSession event is rejected; severity Critical. -/
def spec2Violations (rs : FfiRuntimeState) (ev : FfiKernelEvent) : List FfiSafetyViolation :=
  if rs.status = .safetyLock ∧ ev.eventType = .startSession then
    [{ specName := "safety_lock_immutable",
       description := "Cannot start session while safety locked",
       severity := .critical, timestampMs := ev.timestampMs,
       correctiveAction := some "Block event" }]
  else []

/-- Rust `f32::abs` semantics on the modelled float values. -/
def ratAbs (q : ℚ) : ℚ := if q < 0 then -q else q

/-- The modelled absolute value is nonnegative. -/
lemma ratAbs_nonneg (q : ℚ) : 0 ≤ ratAbs q := by
  unfold ratAbs
  split <;> linarith

/-- Elapsed seconds since the last tempo change, as computed in spec 3 of
`check_event`. -/
def tempoDtSec (m : SafetyMonitorInner) (ev : FfiKernelEvent) : ℚ :=
  ((ev.timestampMs - m.lastTempoChangeMs : ℤ) : ℚ) / 1000

/-- Safety spec 3 (tempo rate limit) of `check_event`: on a tempo adjustment,
the change per elapsed second must not exceed 0.1/sec; severity Warning. -/
def spec3Violations (m : SafetyMonitorInner) (ev : FfiKernelEvent)
    (rs : FfiRuntimeState) : List FfiSafetyViolation :=
  if ev.eventType = .adjustTempo ∧ 0 < tempoDtSec m ev ∧
      0.1 < ratAbs (rs.tempoScale - m.lastTempo) / tempoDtSec m ev then
    [{ specName := "tempo_rate_limit",
       description := "Tempo changing too fast: " ++
         toString (ratAbs (rs.tempoScale - m.lastTempo) / tempoDtSec m ev) ++ "/sec (max 0.1/sec)",
       severity := .warning, timestampMs := ev.timestampMs,
       correctiveAction := some "Rate-limit tempo change" }]
  else []

/-- Elapsed seconds since the last pattern change, as computed in spec 4 of
`check_event`. -/
def patternDtSec (m : SafetyMonitorInner) (ev : FfiKernelEvent) : ℚ :=
  ((ev.timestampMs - m.lastPatternChangeMs : ℤ) : ℚ) / 1000

/-- Safety spec 4 (pattern stability) of `check_event`: successive LoadPattern
events must be at least 60 seconds apart; severity Warning. -/
def spec4Violations (m : SafetyMonitorInner) (ev : FfiKernelEvent) : List FfiSafetyViolation :=
  if ev.eventType = .loadPattern ∧ patternDtSec m ev < 60 ∧ 0 < m.lastPatternChangeMs then
    [{ specName := "pattern_stability",
       description := "Pattern changed too soon (" ++ toString (patternDtSec m ev) ++ "s < 60s min)",
       severity := .warning, timestampMs := ev.timestampMs,
       correctiveAction := none }]
  else []

/-- Safety spec 5 (panic halt) of `check_event`: if belief uncertainty exceeds
0.8 and no emergency halt is among the last 10 trace entries and the event is
not itself an emergency halt, recommend a halt; severity Critical. -/
def spec5Violations (ev : FfiKernelEvent) (rs : FfiRuntimeState)
    (trace : List FfiKernelEvent) : List FfiSafetyViolation :=
  if 0.8 < rs.belief.uncertainty ∧ recentHalt trace = false ∧
      ev.eventType ≠ .emergencyHalt then
    [{ specName := "panic_halt",
       description := "High uncertainty detected, emergency halt recommended",
       severity := .critical, timestampMs := ev.timestampMs,
       correctiveAction := some "Trigger emergency halt" }]
  else []

/-- Safety check, from `SafetyMonitor::check_event`: appends the event to the
bounded trace, evaluates the five fixed specs in order, records the produced
violations in the unbounded log, updates the last-tempo and last-pattern
memory for the matching event kinds, and returns the result (the corrected
event is always `None` in the source). -/
def checkEvent (m : SafetyMonitorInner) (event : FfiKernelEvent)
    (rs : FfiRuntimeState) : FfiSafetyCheckResult × SafetyMonitorInner :=
  let trace' := pushTrace m.trace m.maxTraceSize event
  let vs := spec1Violations rs event.timestampMs ++ spec2Violations rs event ++
    spec3Violations m event rs ++ spec4Violations m event ++
    spec5Violations event rs trace'
  ({ isSafe := vs.isEmpty, violations := vs, correctedEvent := none },
   { m with
     trace := trace',
     violations := m.violations ++ vs,
     lastTempo := (if event.eventType = .adjustTempo then rs.tempoScale else m.lastTempo),
     lastTempoChangeMs :=
       (if event.eventType = .adjustTempo then event.timestampMs else m.lastTempoChangeMs),
     lastPatternChangeMs :=
       (if event.eventType = .loadPattern then event.timestampMs else m.lastPatternChangeMs) })

/-- Every spec-1 violation is named tempo_bounds with severity Error. -/
lemma spec1_name (rs : FfiRuntimeState) (ts : ℤ) :
    ∀ v ∈ spec1Violations rs ts, v.specName = "tempo_bounds" ∧ v.severity = .error := by
  unfold spec1Violations
  split <;> simp

/-- Every spec-2 violation is named safety_lock_immutable with severity Critical. -/
lemma spec2_name (rs : FfiRuntimeState) (ev : FfiKernelEvent) :
    ∀ v ∈ spec2Violations rs ev,
      v.specName = "safety_lock_immutable" ∧ v.severity = .critical := by
  unfold spec2Violations
  split <;> simp

/-- Every spec-3 violation is named tempo_rate_limit with severity Warning. -/
lemma spec3_name (m : SafetyMonitorInner) (ev : FfiKernelEvent) (rs : FfiRuntimeState) :
    ∀ v ∈ spec3Violations m ev rs,
      v.specName = "tempo_rate_limit" ∧ v.severity = .warning := by
  unfold spec3Violations
  split <;> simp

/-- Every spec-4 violation is named pattern_stability with severity Warning. -/
lemma spec4_name (m : SafetyMonitorInner) (ev : FfiKernelEvent) :
    ∀ v ∈ spec4Violations m ev,
      v.specName = "pattern_stability" ∧ v.severity = .warning := by
  unfold spec4Violations
  split <;> simp

/-- Every spec-5 violation is named panic_halt with severity Critical. -/
lemma spec5_name (ev : FfiKernelEvent) (rs : FfiRuntimeState) (tr : List FfiKernelEvent) :
    ∀ v ∈ spec5Violations ev rs tr,
      v.specName = "panic_halt" ∧ v.severity = .critical := by
  unfold spec5Violations
  split <;> simp

/-- A nonnegative numerator forces a positive denominator whenever the
quotient is strictly positive. -/
lemma pos_den_of_rate (d dt : ℚ) (hd : 0 ≤ d) (h : 0.1 < d / dt) : 0 < dt := by
  rcases lt_trichotomy dt 0 with hlt | heq | hgt
  · have hnp : d / dt ≤ 0 := div_nonpos_of_nonneg_of_nonpos hd hlt.le
    norm_num at h
    linarith
  · rw [heq, div_zero] at h
    norm_num at h
  · exact hgt

/-- C7: on an AdjustTempo event, `check_event` raises a tempo_rate_limit
violation, of severity Warning, exactly when the magnitude of tempo change
divided by the elapsed seconds since the last tempo-change event exceeds
0.1/sec, and the monitor's last-tempo value and last-tempo-change timestamp
are updated whether or not the violation fires; on any other event kind no
tempo_rate_limit violation is produced and that memory is unchanged. -/
theorem c7_tempo_rate_limit (m : SafetyMonitorInner) (ev : FfiKernelEvent)
    (rs : FfiRuntimeState) :
    (ev.eventType = .adjustTempo →
      ((∃ v ∈ (checkEvent m ev rs).1.violations, v.specName = "tempo_rate_limit") ↔
        0.1 < ratAbs (rs.tempoScale - m.lastTempo) / tempoDtSec m ev) ∧
      (∀ v ∈ (checkEvent m ev rs).1.violations,
        v.specName = "tempo_rate_limit" → v.severity = .warning) ∧
      (checkEvent m ev rs).2.lastTempo = rs.tempoScale ∧
      (checkEvent m ev rs).2.lastTempoChangeMs = ev.timestampMs) ∧
    (ev.eventType ≠ .adjustTempo →
      (∀ v ∈ (checkEvent m ev rs).1.violations, v.specName ≠ "tempo_rate_limit") ∧
      (checkEvent m ev rs).2.lastTempo = m.lastTempo ∧
      (checkEvent m ev rs).2.lastTempoChangeMs = m.lastTempoChangeMs) := by
  constructor
  · intro hAdj
    refine ⟨?_, ?_, ?_, ?_⟩
    · constructor
      · rintro ⟨v, hv, hname⟩
        simp only [checkEvent, List.mem_append] at hv
        rcases hv with ((((h1 | h2) | h3) | h4) | h5)
        · exact absurd ((spec1_name rs ev.timestampMs v h1).1.symm.trans hname) (by decide)
        · exact absurd ((spec2_name rs ev v h2).1.symm.trans hname) (by decide)
        · unfold spec3Violations at h3
          split at h3
          next hc => exact hc.2.2
          next => simp at h3
        · exact absurd ((spec4_name m ev v h4).1.symm.trans hname) (by decide)
        · exact absurd ((spec5_name ev rs _ v h5).1.symm.trans hname) (by decide)
      · intro hrate
        have hdt : 0 < tempoDtSec m ev :=
          pos_den_of_rate _ _ (ratAbs_nonneg _) hrate
        have hne : spec3Violations m ev rs ≠ [] := by
          unfold spec3Violations
          rw [if_pos ⟨hAdj, hdt, hrate⟩]
          simp
        obtain ⟨v, hv⟩ := List.exists_mem_of_ne_nil _ hne
        refine ⟨v, ?_, (spec3_name m ev rs v hv).1⟩
        simp only [checkEvent, List.mem_append]
        exact Or.inl (Or.inl (Or.inr hv))
    · intro v hv hname
      simp only [checkEvent, List.mem_append] at hv
      rcases hv with ((((h1 | h2) | h3) | h4) | h5)
      · exact absurd ((spec1_name rs ev.timestampMs v h1).1.symm.trans hname) (by decide)
      · exact absurd ((spec2_name rs ev v h2).1.symm.trans hname) (by decide)
      · exact (spec3_name m ev rs v h3).2
      · exact absurd ((spec4_name m ev v h4).1.symm.trans hname) (by decide)
      · exact absurd ((spec5_name ev rs _ v h5).1.symm.trans hname) (by decide)
    · simp [checkEvent, hAdj]
    · simp [checkEvent, hAdj]
  · intro hne
    refine ⟨?_, ?_, ?_⟩
    · intro v hv hname
      simp only [checkEvent, List.mem_append] at hv
      rcases hv with ((((h1 | h2) | h3) | h4) | h5)
      · exact absurd ((spec1_name rs ev.timestampMs v h1).1.symm.trans hname) (by decide)
      · exact absurd ((spec2_name rs ev v h2).1.symm.trans hname) (by decide)
      · unfold spec3Violations at h3
        split at h3
        next hc => exact hne hc.1
        next => simp at h3
      · exact absurd ((spec4_name m ev v h4).1.symm.trans hname) (by decide)
      · exact absurd ((spec5_name ev rs _ v h5).1.symm.trans hname) (by decide)
    · simp [checkEvent, hne]
    · simp [checkEvent, hne]

/-- Runtime snapshot used by concrete check-event witnesses: idle state with
tempo 1.3 and zero belief uncertainty. -/
def sampleState : FfiRuntimeState :=
  { status := .idle, patternId := "4-7-8", phase := .inhale, phaseProgress := 0,
    cyclesCompleted := 0, sessionDurationSec := 0, tempoScale := 13/10,
    belief := ⟨[1, 0, 0, 0, 0], 1, .calm, 0⟩, resonance := ⟨0, 0, 0⟩,
    safety := ⟨false, 0, [0.8, 1.4], [30, 220]⟩ }

/-- Witness for C7: a concrete AdjustTempo event whose rate 0.3/sec exceeds
the 0.1/sec limit, and a Tick event leaving the tempo memory unchanged. -/
theorem c7_tempo_rate_limit_witness :
    (∃ v ∈ (checkEvent SafetyMonitor.new ⟨.adjustTempo, 1000, none⟩
        sampleState).1.violations, v.specName = "tempo_rate_limit") ∧
    (checkEvent SafetyMonitor.new ⟨.tick, 1000, none⟩ sampleState).2.lastTempo =
      SafetyMonitor.new.lastTempo := by
  constructor
  · exact ((c7_tempo_rate_limit SafetyMonitor.new ⟨.adjustTempo, 1000, none⟩
      sampleState).1 rfl).1.mpr
      (by norm_num [sampleState, SafetyMonitor.new, ratAbs, tempoDtSec])
  · exact ((c7_tempo_rate_limit SafetyMonitor.new ⟨.tick, 1000, none⟩
      sampleState).2 (by simp)).2.1

/-- Breathing pattern timings, from `struct BreathTimings`. -/
structure BreathTimings where
  inhale : ℚ
  holdIn : ℚ
  exhale : ℚ
  holdOut : ℚ
deriving DecidableEq

/-- Breathing pattern, from `struct BreathPattern`. -/
structure BreathPattern where
  id : String
  label : String
  tag : String
  description : String
  timings : BreathTimings
  recommendedCycles : ℕ
  arousalImpact : ℚ
deriving DecidableEq

/-- Phase durations in microseconds, from `struct PhaseDurations` of the
zenb-core collaborator crate. -/
structure PhaseDurations where
  inhaleUs : ℕ
  holdInUs : ℕ
  exhaleUs : ℕ
  holdOutUs : ℕ
deriving DecidableEq

/-- Conversion of second-valued timings to microsecond durations, from
`BreathPattern::to_phase_durations` (Rust `as u64` truncates, saturating
at 0 for negatives, which on nonnegative values is the floor). -/
def BreathPattern.toPhaseDurations (p : BreathPattern) : PhaseDurations :=
  { inhaleUs := ((p.timings.inhale * 1000000).floor).toNat,
    holdInUs := ((p.timings.holdIn * 1000000).floor).toNat,
    exhaleUs := ((p.timings.exhale * 1000000).floor).toNat,
    holdOutUs := ((p.timings.holdOut * 1000000).floor).toNat }

/-- The built-in pattern library, from `builtin_patterns` (a HashMap in the
source, modelled as an association list; only keyed lookup is used). -/
def builtinPatterns : List (String × BreathPattern) :=
  [("4-7-8", ⟨"4-7-8", "Relaxing Breath", "calm",
      "Dr. Andrew Weil's classic relaxation technique", ⟨4, 7, 8, 0⟩, 4, -0.8⟩),
   ("calm", ⟨"calm", "Calm Wave", "calm",
      "Gentle, extended exhale for everyday relaxation", ⟨4, 0, 6, 0⟩, 10, -0.5⟩),
   ("7-11", ⟨"7-11", "7-11 Anti-Anxiety", "calm",
      "NHS-recommended technique for acute anxiety relief", ⟨7, 0, 11, 0⟩, 6, -0.9⟩),
   ("deep-relax", ⟨"deep-relax", "Deep Relaxation", "calm",
      "Extended hold and exhale for deep parasympathetic activation", ⟨4, 7, 10, 0⟩, 5, -0.95⟩),
   ("box", ⟨"box", "Box Breathing", "focus",
      "Navy SEAL technique for focus under pressure", ⟨4, 4, 4, 4⟩, 10, 0⟩),
   ("coherence", ⟨"coherence", "Heart Coherence", "focus",
      "HeartMath-style 5-second rhythm for HRV optimization", ⟨5, 0, 5, 0⟩, 12, -0.2⟩),
   ("triangle", ⟨"triangle", "Triangle Breath", "focus",
      "Balanced three-phase pattern for meditation", ⟨4, 4, 4, 0⟩, 8, -0.1⟩),
   ("tactical", ⟨"tactical", "Tactical Breathing", "focus",
      "Combat breathing for high-stress performance", ⟨4, 4, 4, 4⟩, 6, 0.1⟩),
   ("awake", ⟨"awake", "Energizing Breath", "energy",
      "Quick inhale, short exhale for alertness boost", ⟨2, 0, 2, 0⟩, 15, 0.6⟩),
   ("buteyko", ⟨"buteyko", "Buteyko Method", "advanced",
      "Reduced breathing with CO2 tolerance training", ⟨3, 0, 3, 5⟩, 8, -0.3⟩),
   ("wim-hof", ⟨"wim-hof", "Wim Hof Method", "advanced",
      "Controlled hyperventilation followed by retention", ⟨2, 0, 2, 0⟩, 30, 0.8⟩)]

/-- Keyed lookup in the pattern library, from `HashMap::get`. -/
def patternsGet (id : String) : Option BreathPattern :=
  (builtinPatterns.find? fun p => p.1 == id).map fun p => p.2

/-- Modelled from the spec: the phase/timing state machine is an external
collaborator (zenb-core, not under src); the spec says it is constructed
from four phase durations and exposes the current phase, the normalized
progress within the cycle, and the total completed cycles. Its internal
phase arithmetic is out of scope, so `tick` is a parameter of the
environment below. -/
structure PhaseMachine where
  durations : PhaseDurations
  phase : FfiPhase
  progress : ℚ
  cycleIndex : ℕ
deriving DecidableEq

/-- Modelled from the spec: a fresh phase machine built from the given
durations, at the start of its cycle. -/
def PhaseMachine.new (d : PhaseDurations) : PhaseMachine :=
  { durations := d, phase := .inhale, progress := 0, cycleIndex := 0 }

/-- Modelled from the spec: the belief/inference engine is an external
collaborator (zenb-core, not under src); the core only reads its belief
summary (`get_engine_belief`), so it is modelled by that summary, and its
`tick`/`update_context` transitions are parameters of the environment. -/
structure Engine where
  belief : FfiBeliefState
deriving DecidableEq

/-- Belief summary read, from `get_engine_belief`. -/
def getEngineBelief (e : Engine) : FfiBeliefState := e.belief

/-- Context forwarded to the engine, from `struct Context`. -/
structure Context where
  localHour : ℕ
  isCharging : Bool
  recentSessions : ℕ
deriving DecidableEq

/-- Modelled from the spec: behaviour of the out-of-scope collaborators
(phase machine tick, engine tick and context update, and the initial engine
produced by `Engine::new(6.0)`), over which every runtime theorem is
universally quantified. -/
structure Env where
  phaseTick : PhaseMachine → ℕ → PhaseMachine
  engineTick : Engine → ℕ → Engine
  engineUpdateContext : Engine → Context → Engine
  initialEngine : Engine

/-- Active session state, from `struct SessionState` (the `Instant` start
time is modelled as seconds on the shared clock). -/
structure SessionState where
  startTime : ℚ
  patternId : String
  hrSamples : List ℚ
  resonanceSamples : List ℚ
deriving DecidableEq

/-- Actor-owned runtime state, from `struct RuntimeInner`. -/
structure RuntimeInner where
  engine : Engine
  phaseMachine : PhaseMachine
  currentPatternId : String
  session : Option SessionState
  lastTimestampUs : ℤ
  status : FfiRuntimeStatus
  tempoScale : ℚ
  safetyLocked : Bool
  lastResonance : ℚ
deriving DecidableEq

/-- Complete actor state: the owned inner state, the published snapshot
(`state_tx`), the cached frame (`latest_frame`) and the safety monitor,
from `struct RuntimeActor`. -/
structure ActorState where
  inner : RuntimeInner
  published : FfiRuntimeState
  latestFrame : FfiFrame
  safety : SafetyMonitorInner
deriving DecidableEq

/-- Runtime commands, from `enum RuntimeCommand` (the reply channel of
StopSession is modelled by the reply list returned by the step function). -/
inductive RuntimeCommand where
  | startSession
  | stopSession
  | pauseSession
  | resumeSession
  | loadPattern (id : String)
  | processFrame (r g b : ℚ) (timestampUs : ℤ)
  | tick (dtSec : ℚ) (timestampUs : ℤ)
  | resetSafetyLock
  | adjustTempo (scale : ℚ)
  | updateContext (localHour : ℕ) (isCharging : Bool) (recentSessions : ℕ)
  | emergencyHalt (reason : String)
  | updateConfig (cfg : String)
deriving DecidableEq

/-- Snapshot publication, from `RuntimeActor::update_shared_state`:
recomputes the published snapshot from the inner state, the monitor's
violation count and the current clock. -/
def updateSharedState (s : ActorState) (nowSec : ℚ) : ActorState :=
  let sessionDuration := match s.inner.session with
    | some sess => nowSec - sess.startTime
    | none => 0
  { s with
    published :=
    { status := s.inner.status,
      patternId := s.inner.currentPatternId,
      phase := s.inner.phaseMachine.phase,
      phaseProgress := s.inner.phaseMachine.progress,
      cyclesCompleted := s.inner.phaseMachine.cycleIndex,
      sessionDurationSec := sessionDuration,
      tempoScale := s.inner.tempoScale,
      belief := getEngineBelief s.inner.engine,
      resonance := ⟨s.inner.lastResonance, s.inner.lastResonance, s.inner.lastResonance⟩,
      safety := { isLocked := s.inner.safetyLocked,
                  traumaCount := s.safety.violations.length,
                  tempoBounds := [0.8, 1.4], hrBounds := [30, 220] } } }

/-- Frame publication, from `RuntimeActor::update_latest_frame`. -/
def updateLatestFrame (s : ActorState) (hr : Option ℚ) (quality : ℚ) : ActorState :=
  { s with
    latestFrame :=
    { phase := s.inner.phaseMachine.phase,
      phaseProgress := s.inner.phaseMachine.progress,
      cyclesCompleted := s.inner.phaseMachine.cycleIndex,
      heartRate := hr,
      signalQuality := quality,
      belief := getEngineBelief s.inner.engine,
      resonance := ⟨s.inner.lastResonance, s.inner.lastResonance, s.inner.lastResonance⟩ } }

/-- Command gating, from `RuntimeActor::verify_command`: builds the event
at the current clock, checks it against the published snapshot, and drops
the command (after republishing the violation count) when any violation of
severity Error or Critical was produced. -/
def verifyCommand (s : ActorState) (et : FfiKernelEventType) (payload : Option String)
    (nowMs : ℤ) : Bool × ActorState :=
  let event : FfiKernelEvent := { eventType := et, timestampMs := nowMs, payload := payload }
  let r := checkEvent s.safety event s.published
  let s' := { s with safety := r.2 }
  if r.1.isSafe then (true, s')
  else if r.1.violations.any fun v => v.severity == .critical || v.severity == .error then
    (false, updateSharedState s' ((nowMs : ℚ) / 1000))
  else (true, s')

/-- Handler, from `RuntimeActor::handle_start`: gated by the verifier and the
lock flag; on success re-initializes the phase machine from the current
pattern (falling back to 4-7-8), resets the signal pipeline, creates a new
session, sets status Running and publishes. -/
def handleStart (s : ActorState) (nowMs : ℤ) : ActorState :=
  let r := verifyCommand s .startSession none nowMs
  if r.1 = false then r.2
  else if r.2.inner.safetyLocked then r.2
  else
    let pm := match (patternsGet r.2.inner.currentPatternId).orElse
        (fun _ => patternsGet "4-7-8") with
      | some p => PhaseMachine.new p.toPhaseDurations
      | none => r.2.inner.phaseMachine
    let inner' := { r.2.inner with
      phaseMachine := pm,
      lastTimestampUs := 0,
      status := .running,
      session := some ⟨(nowMs : ℚ) / 1000, r.2.inner.currentPatternId, [], []⟩ }
    updateSharedState { r.2 with inner := inner' } ((nowMs : ℚ) / 1000)

/-- Handler, from `RuntimeActor::handle_stop`: unconditionally sets status
Idle, consumes the session (if any) into final statistics or produces the
zeroed default statistics, publishes, and returns the single reply. -/
def handleStop (s : ActorState) (nowMs : ℤ) : ActorState × List FfiSessionStats :=
  let inner0 := { s.inner with status := FfiRuntimeStatus.idle }
  match inner0.session with
  | some sess =>
    let duration := (nowMs : ℚ) / 1000 - sess.startTime
    let avgHr := if sess.hrSamples.isEmpty then none
      else some (sess.hrSamples.sum / (sess.hrSamples.length : ℚ))
    let avgResonance := if sess.resonanceSamples.isEmpty then 0
      else sess.resonanceSamples.sum / (sess.resonanceSamples.length : ℚ)
    let stats : FfiSessionStats :=
      { durationSec := duration, cyclesCompleted := inner0.phaseMachine.cycleIndex,
        patternId := sess.patternId, avgHeartRate := avgHr,
        finalBelief := getEngineBelief inner0.engine, avgResonance := avgResonance }
    (updateSharedState { s with inner := { inner0 with session := none } }
      ((nowMs : ℚ) / 1000), [stats])
  | none =>
    let stats : FfiSessionStats :=
      { durationSec := 0, cyclesCompleted := 0, patternId := "",
        avgHeartRate := none, finalBelief := getEngineBelief inner0.engine,
        avgResonance := 0 }
    (updateSharedState { s with inner := inner0 } ((nowMs : ℚ) / 1000), [stats])

/-- Handler, from `RuntimeActor::handle_reset_safety_lock`: clears the lock
flag, sets status Idle, discards the session and publishes. -/
def handleResetSafetyLock (s : ActorState) (nowMs : ℤ) : ActorState :=
  updateSharedState
    { s with inner := { s.inner with
        safetyLocked := false, status := FfiRuntimeStatus.idle, session := none } }
    ((nowMs : ℚ) / 1000)

/-- Handler, from `RuntimeActor::handle_adjust_tempo`: gated by the
verifier; on success stores the received tempo scale and publishes. -/
def handleAdjustTempo (s : ActorState) (scale : ℚ) (nowMs : ℤ) : ActorState :=
  let r := verifyCommand s .adjustTempo (some (toString scale)) nowMs
  if r.1 = false then r.2
  else updateSharedState { r.2 with inner := { r.2.inner with tempoScale := scale } }
    ((nowMs : ℚ) / 1000)

/-- Handler, from `RuntimeActor::handle_update_context`: forwards the
context to the engine and publishes. -/
def handleUpdateContext (env : Env) (s : ActorState) (ctx : Context) (nowMs : ℤ) : ActorState :=
  updateSharedState
    { s with inner := { s.inner with engine := env.engineUpdateContext s.inner.engine ctx } }
    ((nowMs : ℚ) / 1000)

/-- Handler, from `RuntimeActor::handle_emergency_halt`: unconditionally
sets status SafetyLock, engages the lock flag and publishes (never gated). -/
def handleEmergencyHalt (s : ActorState) (nowMs : ℤ) : ActorState :=
  updateSharedState
    { s with inner := { s.inner with
        status := FfiRuntimeStatus.safetyLock, safetyLocked := true } }
    ((nowMs : ℚ) / 1000)

/-- Handler, from `RuntimeActor::handle_pause`: Running to Paused only. -/
def handlePause (s : ActorState) (nowMs : ℤ) : ActorState :=
  if s.inner.status = FfiRuntimeStatus.running then
    updateSharedState
      { s with inner := { s.inner with status := FfiRuntimeStatus.paused } }
      ((nowMs : ℚ) / 1000)
  else s

/-- Handler, from `RuntimeActor::handle_resume`: Paused to Running only. -/
def handleResume (s : ActorState) (nowMs : ℤ) : ActorState :=
  if s.inner.status = FfiRuntimeStatus.paused then
    updateSharedState
      { s with inner := { s.inner with status := FfiRuntimeStatus.running } }
      ((nowMs : ℚ) / 1000)
  else s

/-- Handler, from `RuntimeActor::handle_load_pattern`: gated by the verifier
and the lock flag; for a known id re-initializes the phase machine, updates
the current pattern id and publishes; unknown ids cause no state change. -/
def handleLoadPattern (s : ActorState) (id : String) (nowMs : ℤ) : ActorState :=
  let r := verifyCommand s .loadPattern (some id) nowMs
  if r.1 = false then r.2
  else if r.2.inner.safetyLocked then r.2
  else match patternsGet id with
    | some p =>
      updateSharedState
        { r.2 with inner := { r.2.inner with
            phaseMachine := PhaseMachine.new p.toPhaseDurations,
            currentPatternId := id } }
        ((nowMs : ℚ) / 1000)
    | none => r.2

/-- Handler, from `RuntimeActor::handle_process_frame`: a non-blocking
hand-off to the signal actor; the runtime state is not mutated. -/
def handleProcessFrame (s : ActorState) : ActorState := s

/-- Handler, from `RuntimeActor::handle_tick`: advances the phase machine
and the engine by the elapsed microseconds (Rust `as u64` on the f32
product, i.e. floor saturating at 0) and publishes state and frame. -/
def handleTick (env : Env) (s : ActorState) (dtSec : ℚ) (timestampUs : ℤ)
    (nowMs : ℤ) : ActorState :=
  let dtUs := ((dtSec * 1000000).floor).toNat
  let inner' := { s.inner with
    lastTimestampUs := timestampUs,
    phaseMachine := env.phaseTick s.inner.phaseMachine dtUs,
    engine := env.engineTick s.inner.engine dtUs }
  updateLatestFrame (updateSharedState { s with inner := inner' } ((nowMs : ℚ) / 1000))
    none 0

/-- Command dispatch, from `RuntimeActor::handle_command`; the returned list
holds the replies sent on the StopSession reply channel (UpdateConfig falls
into the catch-all arm and is a no-op). -/
def stepCmd (env : Env) (s : ActorState) (cmd : RuntimeCommand) (nowMs : ℤ) :
    ActorState × List FfiSessionStats :=
  match cmd with
  | .startSession => (handleStart s nowMs, [])
  | .stopSession => handleStop s nowMs
  | .pauseSession => (handlePause s nowMs, [])
  | .resumeSession => (handleResume s nowMs, [])
  | .loadPattern id => (handleLoadPattern s id nowMs, [])
  | .processFrame _ _ _ _ => (handleProcessFrame s, [])
  | .tick dtSec timestampUs => (handleTick env s dtSec timestampUs nowMs, [])
  | .resetSafetyLock => (handleResetSafetyLock s nowMs, [])
  | .adjustTempo scale => (handleAdjustTempo s scale nowMs, [])
  | .updateContext h c n => (handleUpdateContext env s ⟨h, c, n⟩ nowMs, [])
  | .emergencyHalt _ => (handleEmergencyHalt s nowMs, [])
  | .updateConfig _ => (s, [])

/-- Signal-result handling, from `RuntimeActor::handle_signal_event`:
appends the rate sample to the active session history (if any) and updates
the cached frame; the published snapshot is not republished here. -/
def stepSignal (s : ActorState) (hr confidence : ℚ) : ActorState :=
  let s1 := match s.inner.session with
    | some sess =>
      { s with inner := { s.inner with
          session := some { sess with hrSamples := sess.hrSamples ++ [hr] } } }
    | none => s
  updateLatestFrame s1 (some hr) confidence

/-- Initial actor state, from `ZenOneRuntime::with_pattern`: the phase
machine is built from the requested pattern (falling back to 4-7-8), the
current pattern id is the requested id, and an idle snapshot and frame are
published. -/
def initialState (env : Env) (patternId : String) : ActorState :=
  let pat := (patternsGet patternId).getD
    ((patternsGet "4-7-8").getD
      ⟨"4-7-8", "Relaxing Breath", "calm",
        "Dr. Andrew Weil's classic relaxation technique", ⟨4, 7, 8, 0⟩, 4, -0.8⟩)
  let inner : RuntimeInner :=
    { engine := env.initialEngine,
      phaseMachine := PhaseMachine.new pat.toPhaseDurations,
      currentPatternId := patternId,
      session := none, lastTimestampUs := 0,
      status := FfiRuntimeStatus.idle, tempoScale := 1,
      safetyLocked := false, lastResonance := 0 }
  { inner := inner,
    published :=
    { status := FfiRuntimeStatus.idle, patternId := patternId,
      phase := inner.phaseMachine.phase, phaseProgress := 0,
      cyclesCompleted := 0, sessionDurationSec := 0, tempoScale := 1,
      belief := getEngineBelief inner.engine,
      resonance := ⟨0, 0, 0⟩,
      safety := { isLocked := false, traumaCount := 0,
                  tempoBounds := [0.8, 1.4], hrBounds := [30, 220] } },
    latestFrame :=
    { phase := inner.phaseMachine.phase, phaseProgress := 0,
      cyclesCompleted := 0, heartRate := none, signalQuality := 0,
      belief := getEngineBelief inner.engine, resonance := ⟨0, 0, 0⟩ },
    safety := SafetyMonitor.new }

/-- Synchronous entry point, from `ZenOneRuntime::start_session`: reads the
published snapshot, returns a SafetyViolation error when the lock is
engaged, otherwise enqueues the StartSession command. -/
def startSessionCall (published : FfiRuntimeState) :
    Except ZenOneError (List RuntimeCommand) :=
  if published.safety.isLocked then
    .error (.safetyViolation "Cannot start session while locked")
  else .ok [RuntimeCommand.startSession]

/-- Synchronous entry point, from `ZenOneRuntime::adjust_tempo`: clamps the
requested scale to [0.8, 1.4] on the calling thread, enqueues the clamped
AdjustTempo command and returns the clamped value. -/
def adjustTempoCall (scale : ℚ) : ℚ × List RuntimeCommand :=
  let clamped := rustClamp scale 0.8 1.4
  (clamped, [RuntimeCommand.adjustTempo clamped])

/-- Trivial collaborator environment used by concrete witnesses: the phase
machine and engine are frozen, and the initial engine reports full
uncertainty as a fresh engine does. -/
def env0 : Env :=
  { phaseTick := fun pm _ => pm,
    engineTick := fun e _ => e,
    engineUpdateContext := fun e _ => e,
    initialEngine := { belief := ⟨[0.2, 0.2, 0.2, 0.2, 0.2], 0, .calm, 1⟩ } }

/-- Collaborator environment with a fully confident initial engine, used by
witnesses that need low belief uncertainty. -/
def envConfident : Env :=
  { phaseTick := fun pm _ => pm,
    engineTick := fun e _ => e,
    engineUpdateContext := fun e _ => e,
    initialEngine := { belief := ⟨[1, 0, 0, 0, 0], 1, .calm, 0⟩ } }

/-- Publishing a snapshot leaves the inner state unchanged. -/
@[simp] lemma uSS_inner (s : ActorState) (now : ℚ) : (updateSharedState s now).inner = s.inner := rfl

/-- Publishing a snapshot leaves the monitor unchanged. -/
@[simp] lemma uSS_safety (s : ActorState) (now : ℚ) : (updateSharedState s now).safety = s.safety := rfl

/-- The published status equals the inner status after publishing. -/
@[simp] lemma uSS_pub_status (s : ActorState) (now : ℚ) :
    (updateSharedState s now).published.status = s.inner.status := rfl

/-- The published lock flag equals the inner flag after publishing. -/
@[simp] lemma uSS_pub_isLocked (s : ActorState) (now : ℚ) :
    (updateSharedState s now).published.safety.isLocked = s.inner.safetyLocked := rfl

/-- The published tempo equals the inner tempo after publishing. -/
@[simp] lemma uSS_pub_tempo (s : ActorState) (now : ℚ) :
    (updateSharedState s now).published.tempoScale = s.inner.tempoScale := rfl

/-- Updating the cached frame leaves the inner state unchanged. -/
@[simp] lemma uLF_inner (s : ActorState) (hr : Option ℚ) (q : ℚ) :
    (updateLatestFrame s hr q).inner = s.inner := rfl

/-- Updating the cached frame leaves the published snapshot unchanged. -/
@[simp] lemma uLF_published (s : ActorState) (hr : Option ℚ) (q : ℚ) :
    (updateLatestFrame s hr q).published = s.published := rfl

/-- Updating the cached frame leaves the monitor unchanged. -/
@[simp] lemma uLF_safety (s : ActorState) (hr : Option ℚ) (q : ℚ) :
    (updateLatestFrame s hr q).safety = s.safety := rfl

/-- Gating never mutates the inner runtime state. -/
lemma verifyCommand_inner (s : ActorState) (et : FfiKernelEventType)
    (p : Option String) (n : ℤ) : (verifyCommand s et p n).2.inner = s.inner := by
  simp only [verifyCommand]
  split
  · rfl
  · split <;> rfl

/-- After gating, the published tempo is either untouched or republished
from the unchanged inner tempo. -/
lemma verifyCommand_pub_tempo (s : ActorState) (et : FfiKernelEventType)
    (p : Option String) (n : ℤ) :
    (verifyCommand s et p n).2.published.tempoScale = s.published.tempoScale ∨
    (verifyCommand s et p n).2.published.tempoScale = s.inner.tempoScale := by
  simp only [verifyCommand]
  split
  · exact Or.inl rfl
  · split
    · exact Or.inr rfl
    · exact Or.inl rfl

/-- After gating, the published snapshot is either untouched or republished
from the unchanged inner state. -/
lemma verifyCommand_pub_sync (s : ActorState) (et : FfiKernelEventType)
    (p : Option String) (n : ℤ) :
    (verifyCommand s et p n).2.published = s.published ∨
    ((verifyCommand s et p n).2.published.status = s.inner.status ∧
     (verifyCommand s et p n).2.published.safety.isLocked = s.inner.safetyLocked) := by
  simp only [verifyCommand]
  split
  · exact Or.inl rfl
  · split
    · exact Or.inr ⟨rfl, rfl⟩
    · exact Or.inl rfl

/-- The safety-check result is safe exactly when its violation list is empty. -/
lemma checkEvent_isSafe (m : SafetyMonitorInner) (ev : FfiKernelEvent)
    (rs : FfiRuntimeState) :
    (checkEvent m ev rs).1.isSafe = (checkEvent m ev rs).1.violations.isEmpty := rfl

/-- A critical violation in the check result makes the gate drop the
command without touching the inner runtime state. -/
lemma verify_false_of_critical (s : ActorState) (et : FfiKernelEventType)
    (p : Option String) (n : ℤ)
    (h : ∃ v ∈ (checkEvent s.safety ⟨et, n, p⟩ s.published).1.violations,
      v.severity = .critical) :
    (verifyCommand s et p n).1 = false := by
  obtain ⟨v, hv, hcrit⟩ := h
  have hne : (checkEvent s.safety ⟨et, n, p⟩ s.published).1.violations ≠ [] :=
    List.ne_nil_of_mem hv
  have hsafe : (checkEvent s.safety ⟨et, n, p⟩ s.published).1.isSafe = false := by
    rw [checkEvent_isSafe]
    simpa using hne
  have hany : ((checkEvent s.safety ⟨et, n, p⟩ s.published).1.violations.any
      fun w => w.severity == .critical || w.severity == .error) = true :=
    List.any_eq_true.mpr ⟨v, hv, by rw [hcrit]; rfl⟩
  simp only [verifyCommand]
  rw [hsafe]
  simp [hany]

/-- C5: processing EmergencyHalt unconditionally sets status SafetyLock and
engages the lock flag, never consults the verifier gate (the monitor state
is untouched), sends no reply, and is idempotent: processing it twice
yields exactly the state of processing it once. -/
theorem c5_emergency_halt_idempotent (env : Env) (s : ActorState) (nowMs : ℤ)
    (reason : String) :
    (stepCmd env s (.emergencyHalt reason) nowMs).1.inner.status = .safetyLock ∧
    (stepCmd env s (.emergencyHalt reason) nowMs).1.inner.safetyLocked = true ∧
    (stepCmd env s (.emergencyHalt reason) nowMs).1.safety = s.safety ∧
    (stepCmd env s (.emergencyHalt reason) nowMs).2 = [] ∧
    stepCmd env (stepCmd env s (.emergencyHalt reason) nowMs).1
      (.emergencyHalt reason) nowMs = stepCmd env s (.emergencyHalt reason) nowMs :=
  ⟨rfl, rfl, rfl, rfl, rfl⟩

/-- C4: a StopSession command always produces exactly one reply, sets the
status (inner and published) to Idle, and with no active session the reply
is the zeroed default statistics: zero duration, zero cycles, empty pattern
id, no average heart rate, zero average resonance. -/
theorem c4_stop_always_replies (env : Env) (s : ActorState) (nowMs : ℤ) :
    (stepCmd env s .stopSession nowMs).2.length = 1 ∧
    (stepCmd env s .stopSession nowMs).1.inner.status = .idle ∧
    (stepCmd env s .stopSession nowMs).1.published.status = .idle ∧
    (s.inner.session = none →
      (stepCmd env s .stopSession nowMs).2 =
        [{ durationSec := 0, cyclesCompleted := 0, patternId := "",
           avgHeartRate := none, finalBelief := getEngineBelief s.inner.engine,
           avgResonance := 0 }]) := by
  rcases hsess : s.inner.session with _ | sess
  · refine ⟨?_, ?_, ?_, fun _ => ?_⟩ <;>
      simp [stepCmd, handleStop, updateSharedState, hsess]
  · refine ⟨?_, ?_, ?_, fun h => ?_⟩
    · simp [stepCmd, handleStop, hsess]
    · simp [stepCmd, handleStop, hsess, uSS_inner]
    · simp [stepCmd, handleStop, hsess, uSS_pub_status]
    · exact absurd h (by simp)

/-- Witness for C4 on a fresh runtime (no active session). -/
theorem c4_stop_always_replies_witness :
    (stepCmd env0 (initialState env0 "4-7-8") .stopSession 0).2.length = 1 ∧
    (stepCmd env0 (initialState env0 "4-7-8") .stopSession 0).1.inner.status = .idle ∧
    (stepCmd env0 (initialState env0 "4-7-8") .stopSession 0).1.published.status = .idle ∧
    (stepCmd env0 (initialState env0 "4-7-8") .stopSession 0).2 =
      [{ durationSec := 0, cyclesCompleted := 0, patternId := "",
         avgHeartRate := none,
         finalBelief := getEngineBelief (initialState env0 "4-7-8").inner.engine,
         avgResonance := 0 }] := by
  have h := c4_stop_always_replies env0 (initialState env0 "4-7-8") 0
  exact ⟨h.1, h.2.1, h.2.2.1, h.2.2.2 rfl⟩

/-- Concrete safety-locked runtime state: a fresh runtime after an
EmergencyHalt command. -/
def sHalt : ActorState :=
  (stepCmd env0 (initialState env0 "4-7-8") (.emergencyHalt "manual halt") 0).1

/-- Counterexample to C1 as stated: from a SafetyLock status, the
StopSession command (which is neither ResetSafetyLock nor gated) resets the
status to Idle, so a command other than ResetSafetyLock does clear the
SafetyLock status. -/
theorem c1_counterexample :
    sHalt.inner.status = .safetyLock ∧
    (stepCmd env0 sHalt .stopSession 1000).1.inner.status = .idle ∧
    FfiRuntimeStatus.idle ≠ .safetyLock :=
  ⟨rfl, rfl, by decide⟩

/-- C1 (amended): every runtime command other than ResetSafetyLock and
StopSession preserves a SafetyLock status; the engaged lock flag is
preserved by every command other than ResetSafetyLock (StopSession resets
the status to Idle but leaves the flag engaged); and ResetSafetyLock clears
the flag, discards any in-progress session and sets status Idle. -/
theorem c1_safety_lock_preserved (env : Env) (s : ActorState) (cmd : RuntimeCommand)
    (nowMs : ℤ)
    (hstatus : s.inner.status = .safetyLock)
    (hflag : s.inner.safetyLocked = true) :
    (cmd ≠ .resetSafetyLock → (stepCmd env s cmd nowMs).1.inner.safetyLocked = true) ∧
    (cmd ≠ .resetSafetyLock → cmd ≠ .stopSession →
      (stepCmd env s cmd nowMs).1.inner.status = .safetyLock) ∧
    ((stepCmd env s .resetSafetyLock nowMs).1.inner.safetyLocked = false ∧
     (stepCmd env s .resetSafetyLock nowMs).1.inner.session = none ∧
     (stepCmd env s .resetSafetyLock nowMs).1.inner.status = .idle) := by
  refine ⟨fun _ => ?_, fun _ hns => ?_, rfl, rfl, rfl⟩
  · cases cmd with
    | startSession =>
      have hin := verifyCommand_inner s .startSession none nowMs
      by_cases hb : (verifyCommand s .startSession none nowMs).1 = false <;>
        simp [stepCmd, handleStart, hb, hin, hflag]
    | stopSession =>
      rcases hsess : s.inner.session with _ | sess <;>
        simp [stepCmd, handleStop, hsess, hflag]
    | pauseSession => simp [stepCmd, handlePause, hstatus, hflag]
    | resumeSession => simp [stepCmd, handleResume, hstatus, hflag]
    | loadPattern id =>
      have hin := verifyCommand_inner s .loadPattern (some id) nowMs
      by_cases hb : (verifyCommand s .loadPattern (some id) nowMs).1 = false <;>
        simp [stepCmd, handleLoadPattern, hb, hin, hflag]
    | processFrame r g b t => simp [stepCmd, handleProcessFrame, hflag]
    | tick dt t => simp [stepCmd, handleTick, hflag]
    | resetSafetyLock => simp_all
    | adjustTempo q =>
      have hin := verifyCommand_inner s .adjustTempo (some (toString q)) nowMs
      by_cases hb : (verifyCommand s .adjustTempo (some (toString q)) nowMs).1 = false <;>
        simp [stepCmd, handleAdjustTempo, hb, hin, hflag]
    | updateContext h c n => simp [stepCmd, handleUpdateContext, hflag]
    | emergencyHalt reason => simp [stepCmd, handleEmergencyHalt]
    | updateConfig cfg => simp [stepCmd, hflag]
  · cases cmd with
    | startSession =>
      have hin := verifyCommand_inner s .startSession none nowMs
      by_cases hb : (verifyCommand s .startSession none nowMs).1 = false <;>
        simp [stepCmd, handleStart, hb, hin, hflag, hstatus]
    | stopSession => exact absurd rfl hns
    | pauseSession => simp [stepCmd, handlePause, hstatus]
    | resumeSession => simp [stepCmd, handleResume, hstatus]
    | loadPattern id =>
      have hin := verifyCommand_inner s .loadPattern (some id) nowMs
      by_cases hb : (verifyCommand s .loadPattern (some id) nowMs).1 = false <;>
        simp [stepCmd, handleLoadPattern, hb, hin, hflag, hstatus]
    | processFrame r g b t => simp [stepCmd, handleProcessFrame, hstatus]
    | tick dt t => simp [stepCmd, handleTick, hstatus]
    | resetSafetyLock => simp_all
    | adjustTempo q =>
      have hin := verifyCommand_inner s .adjustTempo (some (toString q)) nowMs
      by_cases hb : (verifyCommand s .adjustTempo (some (toString q)) nowMs).1 = false <;>
        simp [stepCmd, handleAdjustTempo, hb, hin, hstatus]
    | updateContext h c n => simp [stepCmd, handleUpdateContext, hstatus]
    | emergencyHalt reason => simp [stepCmd, handleEmergencyHalt]
    | updateConfig cfg => simp [stepCmd, hstatus]

/-- Witness for C1 (amended) at the concrete halted state with a Pause
command. -/
theorem c1_safety_lock_preserved_witness :
    (stepCmd env0 sHalt .pauseSession 5).1.inner.safetyLocked = true ∧
    (stepCmd env0 sHalt .pauseSession 5).1.inner.status = .safetyLock ∧
    ((stepCmd env0 sHalt .resetSafetyLock 5).1.inner.safetyLocked = false ∧
     (stepCmd env0 sHalt .resetSafetyLock 5).1.inner.session = none ∧
     (stepCmd env0 sHalt .resetSafetyLock 5).1.inner.status = .idle) := by
  have h := c1_safety_lock_preserved env0 sHalt .pauseSession 5 rfl rfl
  exact ⟨h.1 (by decide), h.2.1 (by decide) (by decide), h.2.2⟩

/-- The Rust clamp lands inside the bounds whenever they are ordered. -/
lemma rustClamp_bounds (x lo hi : ℚ) (h : lo ≤ hi) :
    lo ≤ rustClamp x lo hi ∧ rustClamp x lo hi ≤ hi := by
  unfold rustClamp
  split_ifs with h1 h2 <;> constructor <;> linarith

/-- A command whose AdjustTempo payload (if it is one) is already inside
the runtime tempo bounds, as every command produced by `adjust_tempo` is. -/
def ClampedCmd (cmd : RuntimeCommand) : Prop :=
  ∀ q, cmd = .adjustTempo q → 0.8 ≤ q ∧ q ≤ 1.4

/-- C3: `adjust_tempo` clamps every requested scale to [0.8, 1.4], returns
the clamped value and sends exactly that value to the runtime; and for
commands whose tempo payload is so clamped, the inner and published tempo
scales stay within [0.8, 1.4] across every processed command. -/
theorem c3_adjust_tempo_clamped (scale : ℚ) :
    (adjustTempoCall scale).1 = rustClamp scale 0.8 1.4 ∧
    0.8 ≤ (adjustTempoCall scale).1 ∧ (adjustTempoCall scale).1 ≤ 1.4 ∧
    (adjustTempoCall scale).2 = [RuntimeCommand.adjustTempo (adjustTempoCall scale).1] ∧
    ∀ (env : Env) (s : ActorState) (cmd : RuntimeCommand) (nowMs : ℤ),
      ClampedCmd cmd →
      0.8 ≤ s.inner.tempoScale → s.inner.tempoScale ≤ 1.4 →
      0.8 ≤ s.published.tempoScale → s.published.tempoScale ≤ 1.4 →
      (0.8 ≤ (stepCmd env s cmd nowMs).1.inner.tempoScale ∧
       (stepCmd env s cmd nowMs).1.inner.tempoScale ≤ 1.4 ∧
       0.8 ≤ (stepCmd env s cmd nowMs).1.published.tempoScale ∧
       (stepCmd env s cmd nowMs).1.published.tempoScale ≤ 1.4) := by
  have hcb := rustClamp_bounds scale 0.8 1.4 (by norm_num)
  refine ⟨rfl, hcb.1, hcb.2, rfl, ?_⟩
  intro env s cmd nowMs hcl h1 h2 h3 h4
  cases cmd with
  | startSession =>
    have hin := verifyCommand_inner s .startSession none nowMs
    rcases verifyCommand_pub_tempo s .startSession none nowMs with hp | hp <;>
      by_cases hb : (verifyCommand s .startSession none nowMs).1 = false <;>
        by_cases hl : s.inner.safetyLocked = true <;>
          simp [stepCmd, handleStart, hb, hl, hin, hp, h1, h2, h3, h4]
  | stopSession =>
    rcases hsess : s.inner.session with _ | sess <;>
      simp [stepCmd, handleStop, hsess, h1, h2, h3, h4]
  | pauseSession =>
    by_cases hr : s.inner.status = FfiRuntimeStatus.running <;>
      simp [stepCmd, handlePause, hr, h1, h2, h3, h4]
  | resumeSession =>
    by_cases hr : s.inner.status = FfiRuntimeStatus.paused <;>
      simp [stepCmd, handleResume, hr, h1, h2, h3, h4]
  | loadPattern id =>
    have hin := verifyCommand_inner s .loadPattern (some id) nowMs
    rcases hpat : patternsGet id with _ | p <;>
      rcases verifyCommand_pub_tempo s .loadPattern (some id) nowMs with hp | hp <;>
        by_cases hb : (verifyCommand s .loadPattern (some id) nowMs).1 = false <;>
          by_cases hl : s.inner.safetyLocked = true <;>
            simp [stepCmd, handleLoadPattern, hb, hl, hin, hp, hpat, h1, h2, h3, h4]
  | processFrame r g b t => simp [stepCmd, handleProcessFrame, h1, h2, h3, h4]
  | tick dt t => simp [stepCmd, handleTick, h1, h2, h3, h4]
  | resetSafetyLock => simp [stepCmd, handleResetSafetyLock, h1, h2, h3, h4]
  | adjustTempo q =>
    obtain ⟨hq1, hq2⟩ := hcl q rfl
    have hin := verifyCommand_inner s .adjustTempo (some (toString q)) nowMs
    rcases verifyCommand_pub_tempo s .adjustTempo (some (toString q)) nowMs with hp | hp <;>
      by_cases hb : (verifyCommand s .adjustTempo (some (toString q)) nowMs).1 = false <;>
        simp [stepCmd, handleAdjustTempo, hb, hin, hp, h1, h2, h3, h4, hq1, hq2]
  | updateContext h c n => simp [stepCmd, handleUpdateContext, h1, h2, h3, h4]
  | emergencyHalt reason => simp [stepCmd, handleEmergencyHalt, h1, h2, h3, h4]
  | updateConfig cfg => simp [stepCmd, h1, h2, h3, h4]

/-- Witness for C3: a request of 2.0 is clamped to 1.4, and the invariant
holds at the fresh runtime for the resulting command. -/
theorem c3_adjust_tempo_clamped_witness :
    (adjustTempoCall 2).1 = rustClamp 2 0.8 1.4 ∧
    (0.8 ≤ (stepCmd env0 (initialState env0 "4-7-8")
        (.adjustTempo (adjustTempoCall 2).1) 0).1.inner.tempoScale ∧
     (stepCmd env0 (initialState env0 "4-7-8")
        (.adjustTempo (adjustTempoCall 2).1) 0).1.inner.tempoScale ≤ 1.4) := by
  have h := c3_adjust_tempo_clamped 2
  have hstep := h.2.2.2.2 env0 (initialState env0 "4-7-8")
    (.adjustTempo (adjustTempoCall 2).1) 0
    (fun q hq => by
      injection hq with hq
      rw [← hq]
      exact ⟨h.2.1, h.2.2.1⟩)
    (by norm_num [initialState]) (by norm_num [initialState])
    (by norm_num [initialState]) (by norm_num [initialState])
  exact ⟨h.1, hstep.1, hstep.2.1⟩

/-- Pushing a non-halt event onto the bounded trace reduces the ten-entry
recent-halt check to a nine-entry check on the pre-push trace. -/
lemma recentHalt_push (tr : List FfiKernelEvent) (maxSize : ℕ) (ev : FfiKernelEvent)
    (h : (ev.eventType == .emergencyHalt) = false) :
    recentHalt (pushTrace tr maxSize ev) =
      ((if maxSize < tr.length + 1 then tr.drop 1 else tr).reverse.take 9).any
        (fun e => e.eventType == .emergencyHalt) := by
  unfold pushTrace recentHalt
  simp only [List.length_append, List.length_singleton]
  split
  · cases tr with
    | nil => simp
    | cons a t => simp [h]
  · simp [h]

/-- Under high uncertainty with no recent halt, spec 5 produces exactly the
panic-halt Critical violation. -/
lemma spec5_fires (ev : FfiKernelEvent) (rs : FfiRuntimeState)
    (trace : List FfiKernelEvent)
    (hu : 0.8 < rs.belief.uncertainty)
    (hr : recentHalt trace = false)
    (he : ev.eventType ≠ .emergencyHalt) :
    spec5Violations ev rs trace =
      [{ specName := "panic_halt",
         description := "High uncertainty detected, emergency halt recommended",
         severity := .critical, timestampMs := ev.timestampMs,
         correctiveAction := some "Trigger emergency halt" }] := by
  unfold spec5Violations
  rw [if_pos ⟨hu, hr, he⟩]

/-- Under high uncertainty with no recent halt, the check result carries a
Critical panic_halt violation. -/
lemma checkEvent_panic_mem (m : SafetyMonitorInner) (ev : FfiKernelEvent)
    (rs : FfiRuntimeState)
    (hu : 0.8 < rs.belief.uncertainty)
    (hr : recentHalt (pushTrace m.trace m.maxTraceSize ev) = false)
    (he : ev.eventType ≠ .emergencyHalt) :
    ∃ v ∈ (checkEvent m ev rs).1.violations,
      v.specName = "panic_halt" ∧ v.severity = .critical := by
  refine ⟨⟨"panic_halt", "High uncertainty detected, emergency halt recommended",
    .critical, ev.timestampMs, some "Trigger emergency halt"⟩, ?_, rfl, rfl⟩
  simp only [checkEvent, List.mem_append]
  right
  rw [spec5_fires ev rs _ hu hr he]
  simp

/-- C10: when the published snapshot has belief uncertainty above 0.8 and no
emergency halt appears among the last 10 trace entries, every non-halt event
checks to a Critical panic_halt violation, and consequently the gated
commands StartSession, LoadPattern and AdjustTempo are all dropped with the
inner runtime state unchanged. -/
theorem c10_panic_halt_blocks (env : Env) (s : ActorState) (nowMs : ℤ)
    (id : String) (q : ℚ)
    (hu : 0.8 < s.published.belief.uncertainty)
    (hH : recentHalt (pushTrace s.safety.trace s.safety.maxTraceSize
      ⟨.startSession, nowMs, none⟩) = false) :
    (∀ ev : FfiKernelEvent, ev.eventType ≠ .emergencyHalt →
      recentHalt (pushTrace s.safety.trace s.safety.maxTraceSize ev) = false →
      ∃ v ∈ (checkEvent s.safety ev s.published).1.violations,
        v.specName = "panic_halt" ∧ v.severity = .critical) ∧
    (stepCmd env s .startSession nowMs).1.inner = s.inner ∧
    (stepCmd env s (.loadPattern id) nowMs).1.inner = s.inner ∧
    (stepCmd env s (.adjustTempo q) nowMs).1.inner = s.inner := by
  have hgen : ∀ ev : FfiKernelEvent, ev.eventType ≠ .emergencyHalt →
      recentHalt (pushTrace s.safety.trace s.safety.maxTraceSize ev) = false →
      ∃ v ∈ (checkEvent s.safety ev s.published).1.violations,
        v.specName = "panic_halt" ∧ v.severity = .critical :=
    fun ev he hr => checkEvent_panic_mem s.safety ev s.published hu hr he
  have hneS : (FfiKernelEvent.mk .startSession nowMs none).eventType ≠
      .emergencyHalt := fun hc => by cases hc
  have hneL : (FfiKernelEvent.mk .loadPattern nowMs (some id)).eventType ≠
      .emergencyHalt := fun hc => by cases hc
  have hneA : (FfiKernelEvent.mk .adjustTempo nowMs (some (toString q))).eventType ≠
      .emergencyHalt := fun hc => by cases hc
  have hbS : ((FfiKernelEvent.mk .startSession nowMs none).eventType ==
      .emergencyHalt) = false := rfl
  have hbL : ((FfiKernelEvent.mk .loadPattern nowMs (some id)).eventType ==
      .emergencyHalt) = false := rfl
  have hbA : ((FfiKernelEvent.mk .adjustTempo nowMs (some (toString q))).eventType ==
      .emergencyHalt) = false := rfl
  have hH9 : ((if s.safety.maxTraceSize < s.safety.trace.length + 1 then
      s.safety.trace.drop 1 else s.safety.trace).reverse.take 9).any
        (fun e => e.eventType == .emergencyHalt) = false := by
    rw [← recentHalt_push s.safety.trace s.safety.maxTraceSize
      (FfiKernelEvent.mk .startSession nowMs none) hbS]
    exact hH
  refine ⟨hgen, ?_, ?_, ?_⟩
  · have hv := verify_false_of_critical s .startSession none nowMs
      (by
        obtain ⟨v, hm, _, hc⟩ := hgen (FfiKernelEvent.mk .startSession nowMs none) hneS hH
        exact ⟨v, hm, hc⟩)
    simp [stepCmd, handleStart, hv, verifyCommand_inner]
  · have hr : recentHalt (pushTrace s.safety.trace s.safety.maxTraceSize
        (FfiKernelEvent.mk .loadPattern nowMs (some id))) = false := by
      rw [recentHalt_push s.safety.trace s.safety.maxTraceSize
        (FfiKernelEvent.mk .loadPattern nowMs (some id)) hbL]
      exact hH9
    have hv := verify_false_of_critical s .loadPattern (some id) nowMs
      (by
        obtain ⟨v, hm, _, hc⟩ := hgen (FfiKernelEvent.mk .loadPattern nowMs (some id)) hneL hr
        exact ⟨v, hm, hc⟩)
    simp [stepCmd, handleLoadPattern, hv, verifyCommand_inner]
  · have hr : recentHalt (pushTrace s.safety.trace s.safety.maxTraceSize
        (FfiKernelEvent.mk .adjustTempo nowMs (some (toString q)))) = false := by
      rw [recentHalt_push s.safety.trace s.safety.maxTraceSize
        (FfiKernelEvent.mk .adjustTempo nowMs (some (toString q))) hbA]
      exact hH9
    have hv := verify_false_of_critical s .adjustTempo (some (toString q)) nowMs
      (by
        obtain ⟨v, hm, _, hc⟩ := hgen (FfiKernelEvent.mk .adjustTempo nowMs (some (toString q))) hneA hr
        exact ⟨v, hm, hc⟩)
    simp [stepCmd, handleAdjustTempo, hv, verifyCommand_inner]

/-- Witness for C10 on a fresh runtime, whose default engine belief has
uncertainty 1 and whose trace is empty. -/
theorem c10_panic_halt_blocks_witness :
    (stepCmd env0 (initialState env0 "4-7-8") .startSession 7).1.inner =
      (initialState env0 "4-7-8").inner ∧
    (stepCmd env0 (initialState env0 "4-7-8") (.loadPattern "box") 7).1.inner =
      (initialState env0 "4-7-8").inner ∧
    (stepCmd env0 (initialState env0 "4-7-8") (.adjustTempo 1) 7).1.inner =
      (initialState env0 "4-7-8").inner := by
  have h := c10_panic_halt_blocks env0 (initialState env0 "4-7-8") 7 "box" 1
    (by norm_num [initialState, env0, getEngineBelief])
    (by simp [initialState, SafetyMonitor.new, pushTrace, recentHalt])
  exact ⟨h.2.1, h.2.2.1, h.2.2.2⟩

/-- While status is SafetyLock, a StartSession event produces exactly the
safety-lock-immutable Critical violation in spec 2. -/
lemma spec2_fires (rs : FfiRuntimeState) (ev : FfiKernelEvent)
    (h : rs.status = .safetyLock) (h2 : ev.eventType = .startSession) :
    spec2Violations rs ev =
      [⟨"safety_lock_immutable", "Cannot start session while safety locked",
        .critical, ev.timestampMs, some "Block event"⟩] := by
  unfold spec2Violations
  rw [if_pos ⟨h, h2⟩]

/-- C6: two LoadPattern events of known ids checked less than 60 seconds
apart (the monitor remembers a positive last-pattern-change time) make the
second check produce a pattern_stability violation of severity Warning and
nothing stronger, the monitor's last-pattern-change timestamp is updated to
the new event time, and the second load still takes effect: the current
pattern id changes to the new id and the phase machine is re-initialized
from the new pattern.  The state is assumed not safety-locked, with its
published tempo in bounds and belief uncertainty at most 0.8, so that no
independent safety spec blocks the command. -/
theorem c6_pattern_stability_warning (env : Env) (s : ActorState)
    (id2 : String) (t2 : ℤ) (p : BreathPattern)
    (hp : patternsGet id2 = some p)
    (hlock : s.inner.safetyLocked = false)
    (htempo1 : ¬(s.published.tempoScale < 0.8))
    (htempo2 : ¬((1.4 : ℚ) < s.published.tempoScale))
    (hunc : ¬((0.8 : ℚ) < s.published.belief.uncertainty))
    (hlast : 0 < s.safety.lastPatternChangeMs)
    (hdt : patternDtSec s.safety (FfiKernelEvent.mk .loadPattern t2 (some id2)) < 60)
    (hne : id2 ≠ s.inner.currentPatternId) :
    (∃ v ∈ (checkEvent s.safety (FfiKernelEvent.mk .loadPattern t2 (some id2))
        s.published).1.violations,
      v.specName = "pattern_stability" ∧ v.severity = .warning) ∧
    (∀ v ∈ (checkEvent s.safety (FfiKernelEvent.mk .loadPattern t2 (some id2))
        s.published).1.violations, v.severity = .warning) ∧
    (stepCmd env s (.loadPattern id2) t2).1.safety.lastPatternChangeMs = t2 ∧
    (stepCmd env s (.loadPattern id2) t2).1.inner.currentPatternId = id2 ∧
    (stepCmd env s (.loadPattern id2) t2).1.inner.currentPatternId ≠
      s.inner.currentPatternId ∧
    (stepCmd env s (.loadPattern id2) t2).1.inner.phaseMachine =
      PhaseMachine.new p.toPhaseDurations := by
  have h1 : spec1Violations s.published t2 = [] := by
    unfold spec1Violations
    rw [if_neg]
    rintro (hc | hc)
    · exact htempo1 hc
    · exact htempo2 hc
  have h2 : spec2Violations s.published (FfiKernelEvent.mk .loadPattern t2 (some id2)) = [] := by
    unfold spec2Violations
    rw [if_neg]
    rintro ⟨-, hc⟩
    cases hc
  have h3 : spec3Violations s.safety (FfiKernelEvent.mk .loadPattern t2 (some id2))
      s.published = [] := by
    unfold spec3Violations
    rw [if_neg]
    rintro ⟨hc, -⟩
    cases hc
  have h4 : spec4Violations s.safety (FfiKernelEvent.mk .loadPattern t2 (some id2)) =
      [⟨"pattern_stability",
        "Pattern changed too soon (" ++
          toString (patternDtSec s.safety (FfiKernelEvent.mk .loadPattern t2 (some id2))) ++
          "s < 60s min)",
        .warning, t2, none⟩] := by
    unfold spec4Violations
    rw [if_pos ⟨rfl, hdt, hlast⟩]
  have h5 : spec5Violations (FfiKernelEvent.mk .loadPattern t2 (some id2)) s.published
      (pushTrace s.safety.trace s.safety.maxTraceSize
        (FfiKernelEvent.mk .loadPattern t2 (some id2))) = [] := by
    unfold spec5Violations
    rw [if_neg]
    rintro ⟨hc, -, -⟩
    exact hunc hc
  have hviol : (checkEvent s.safety (FfiKernelEvent.mk .loadPattern t2 (some id2))
      s.published).1.violations =
      [⟨"pattern_stability",
        "Pattern changed too soon (" ++
          toString (patternDtSec s.safety (FfiKernelEvent.mk .loadPattern t2 (some id2))) ++
          "s < 60s min)",
        .warning, t2, none⟩] := by
    simp only [checkEvent]
    rw [h1, h2, h3, h4, h5]
    simp
  have hsafe : (checkEvent s.safety (FfiKernelEvent.mk .loadPattern t2 (some id2))
      s.published).1.isSafe = false := by
    rw [checkEvent_isSafe, hviol]
    rfl
  have hany : ((checkEvent s.safety (FfiKernelEvent.mk .loadPattern t2 (some id2))
      s.published).1.violations.any
        fun v => v.severity == .critical || v.severity == .error) = false := by
    rw [hviol]
    rfl
  have hver : verifyCommand s .loadPattern (some id2) t2 =
      (true, { s with safety := (checkEvent s.safety
        (FfiKernelEvent.mk .loadPattern t2 (some id2)) s.published).2 }) := by
    simp only [verifyCommand]
    rw [hsafe, hany]
    simp
  refine ⟨?_, ?_, ?_, ?_, ?_, ?_⟩
  · refine ⟨⟨"pattern_stability",
      "Pattern changed too soon (" ++
        toString (patternDtSec s.safety (FfiKernelEvent.mk .loadPattern t2 (some id2))) ++
        "s < 60s min)",
      .warning, t2, none⟩, ?_, rfl, rfl⟩
    rw [hviol]
    simp
  · intro v hv
    rw [hviol] at hv
    simp at hv
    rw [hv]
  · simp [stepCmd, handleLoadPattern, hver, hlock, hp, checkEvent]
  · simp [stepCmd, handleLoadPattern, hver, hlock, hp]
  · simp only [stepCmd, handleLoadPattern, hver]
    simp [hlock, hp, hne]
  · simp [stepCmd, handleLoadPattern, hver, hlock, hp]

/-- Concrete runtime state for the C6 witness: not locked, published tempo 1
and zero uncertainty, one pattern loaded 10 seconds ago. -/
def sC6 : ActorState :=
  { inner :=
    { engine := ⟨⟨[1, 0, 0, 0, 0], 1, .calm, 0⟩⟩,
      phaseMachine := PhaseMachine.new ⟨4000000, 4000000, 4000000, 4000000⟩,
      currentPatternId := "box", session := none, lastTimestampUs := 0,
      status := .idle, tempoScale := 1, safetyLocked := false, lastResonance := 0 },
    published :=
    { status := .idle, patternId := "box", phase := .inhale, phaseProgress := 0,
      cyclesCompleted := 0, sessionDurationSec := 0, tempoScale := 1,
      belief := ⟨[1, 0, 0, 0, 0], 1, .calm, 0⟩, resonance := ⟨0, 0, 0⟩,
      safety := ⟨false, 0, [0.8, 1.4], [30, 220]⟩ },
    latestFrame :=
    { phase := .inhale, phaseProgress := 0, cyclesCompleted := 0,
      heartRate := none, signalQuality := 0,
      belief := ⟨[1, 0, 0, 0, 0], 1, .calm, 0⟩, resonance := ⟨0, 0, 0⟩ },
    safety :=
    { trace := [⟨.loadPattern, 100000, some "box"⟩], violations := [],
      lastTempo := 1, lastTempoChangeMs := 0, lastPatternChangeMs := 100000,
      maxTraceSize := 100 } }

/-- Witness for C6: loading calm 10 seconds after box produces the Warning
yet still swaps the current pattern. -/
theorem c6_pattern_stability_warning_witness :
    (∃ v ∈ (checkEvent sC6.safety (FfiKernelEvent.mk .loadPattern 110000 (some "calm"))
        sC6.published).1.violations,
      v.specName = "pattern_stability" ∧ v.severity = .warning) ∧
    (stepCmd env0 sC6 (.loadPattern "calm") 110000).1.safety.lastPatternChangeMs = 110000 ∧
    (stepCmd env0 sC6 (.loadPattern "calm") 110000).1.inner.currentPatternId = "calm" := by
  have h := c6_pattern_stability_warning env0 sC6 "calm" 110000
    ⟨"calm", "Calm Wave", "calm",
      "Gentle, extended exhale for everyday relaxation", ⟨4, 0, 6, 0⟩, 10, -0.5⟩
    rfl rfl
    (by norm_num [sC6])
    (by norm_num [sC6])
    (by norm_num [sC6])
    (by norm_num [sC6])
    (by norm_num [sC6, patternDtSec])
    (by simp [sC6])
  exact ⟨h.1, h.2.2.1, h.2.2.2.1⟩

/-- Reachable actor states: the initial state of `with_pattern` closed under
command processing and signal-result handling. -/
inductive Reachable (env : Env) : ActorState → Prop where
  | init (patternId : String) : Reachable env (initialState env patternId)
  | stepC (s : ActorState) (cmd : RuntimeCommand) (nowMs : ℤ) :
      Reachable env s → Reachable env (stepCmd env s cmd nowMs).1
  | stepS (s : ActorState) (hr confidence : ℚ) :
      Reachable env s → Reachable env (stepSignal s hr confidence)

/-- Coherence of the published snapshot with the inner state: the published
status and lock flag mirror the inner ones, and a SafetyLock status always
comes with the lock flag engaged. -/
def SyncInv (s : ActorState) : Prop :=
  s.published.status = s.inner.status ∧
  s.published.safety.isLocked = s.inner.safetyLocked ∧
  (s.inner.status = .safetyLock → s.inner.safetyLocked = true)

/-- The initial state is coherent. -/
lemma syncInv_init (env : Env) (patternId : String) :
    SyncInv (initialState env patternId) :=
  ⟨rfl, rfl, fun h => FfiRuntimeStatus.noConfusion h⟩

/-- Publishing restores coherence for any state whose inner lock discipline
holds. -/
lemma syncInv_update (s : ActorState) (now : ℚ)
    (h3 : s.inner.status = .safetyLock → s.inner.safetyLocked = true) :
    SyncInv (updateSharedState s now) :=
  ⟨rfl, rfl, h3⟩

/-- Updating the cached frame preserves coherence. -/
lemma syncInv_uLF (s : ActorState) (hr : Option ℚ) (q : ℚ)
    (h : SyncInv s) : SyncInv (updateLatestFrame s hr q) := h

/-- Gating preserves coherence. -/
lemma syncInv_verify (s : ActorState) (et : FfiKernelEventType)
    (p : Option String) (n : ℤ) (h : SyncInv s) :
    SyncInv (verifyCommand s et p n).2 := by
  simp only [verifyCommand]
  split
  · exact h
  · split
    · exact syncInv_update _ _ h.2.2
    · exact h

/-- Every command handler preserves coherence. -/
lemma syncInv_step (env : Env) (s : ActorState) (cmd : RuntimeCommand) (nowMs : ℤ)
    (h : SyncInv s) : SyncInv (stepCmd env s cmd nowMs).1 := by
  cases cmd with
  | startSession =>
    simp only [stepCmd, handleStart]
    split
    · exact syncInv_verify _ _ _ _ h
    · split
      · exact syncInv_verify _ _ _ _ h
      · exact syncInv_update _ _ (fun hc => FfiRuntimeStatus.noConfusion hc)
  | stopSession =>
    simp only [stepCmd, handleStop]
    split
    · exact syncInv_update _ ((nowMs : ℚ) / 1000) (fun hc => FfiRuntimeStatus.noConfusion hc)
    · exact syncInv_update _ ((nowMs : ℚ) / 1000) (fun hc => FfiRuntimeStatus.noConfusion hc)
  | pauseSession =>
    simp only [stepCmd, handlePause]
    split
    · exact syncInv_update _ _ (fun hc => FfiRuntimeStatus.noConfusion hc)
    · exact h
  | resumeSession =>
    simp only [stepCmd, handleResume]
    split
    · exact syncInv_update _ _ (fun hc => FfiRuntimeStatus.noConfusion hc)
    · exact h
  | loadPattern id =>
    have hin := verifyCommand_inner s .loadPattern (some id) nowMs
    have hv := syncInv_verify s .loadPattern (some id) nowMs h
    simp only [stepCmd, handleLoadPattern]
    split
    · exact hv
    · split
      · exact hv
      · split
        · refine syncInv_update _ _ (fun hc => ?_)
          exact hv.2.2 hc
        · exact hv
  | processFrame r g b t => exact h
  | tick dt t =>
    simp only [stepCmd, handleTick]
    exact syncInv_uLF _ _ _ (syncInv_update _ _ (fun hc => h.2.2 hc))
  | resetSafetyLock =>
    simp only [stepCmd, handleResetSafetyLock]
    exact syncInv_update _ ((nowMs : ℚ) / 1000) (fun hc => FfiRuntimeStatus.noConfusion hc)
  | adjustTempo q =>
    have hv := syncInv_verify s .adjustTempo (some (toString q)) nowMs h
    simp only [stepCmd, handleAdjustTempo]
    split
    · exact hv
    · refine syncInv_update _ _ (fun hc => ?_)
      exact hv.2.2 hc
  | updateContext lh c n =>
    simp only [stepCmd, handleUpdateContext]
    exact syncInv_update _ _ (fun hc => h.2.2 hc)
  | emergencyHalt reason =>
    simp only [stepCmd, handleEmergencyHalt]
    exact syncInv_update _ ((nowMs : ℚ) / 1000) (fun _ => rfl)
  | updateConfig cfg => exact h

/-- Signal handling preserves coherence. -/
lemma syncInv_stepSignal (s : ActorState) (hr confidence : ℚ)
    (h : SyncInv s) : SyncInv (stepSignal s hr confidence) := by
  simp only [stepSignal]
  split
  · exact syncInv_uLF _ _ _ ⟨h.1, h.2.1, h.2.2⟩
  · exact syncInv_uLF _ _ _ h

/-- Every reachable state is coherent. -/
lemma reachable_syncInv (env : Env) (s : ActorState)
    (h : Reachable env s) : SyncInv s := by
  induction h with
  | init patternId => exact syncInv_init env patternId
  | stepC s cmd nowMs _ ih => exact syncInv_step env s cmd nowMs ih
  | stepS s hr confidence _ ih => exact syncInv_stepSignal s hr confidence ih

/-- C2: in a reachable state whose published status is SafetyLock, checking
a StartSession event raises the Critical safety_lock_immutable violation
with no corrected event, processing StartSession leaves the inner runtime
state unchanged (so no session is created and the status never becomes
Running), and the synchronous `start_session` entry point returns a
SafetyViolation error. -/
theorem c2_safety_lock_blocks_start (env : Env) (s : ActorState) (nowMs : ℤ)
    (hreach : Reachable env s)
    (hpub : s.published.status = .safetyLock) :
    (∃ v ∈ (checkEvent s.safety (FfiKernelEvent.mk .startSession nowMs none)
        s.published).1.violations,
      v.specName = "safety_lock_immutable" ∧ v.severity = .critical) ∧
    (checkEvent s.safety (FfiKernelEvent.mk .startSession nowMs none)
      s.published).1.correctedEvent = none ∧
    (stepCmd env s .startSession nowMs).1.inner = s.inner ∧
    (stepCmd env s .startSession nowMs).1.inner.status ≠ .running ∧
    startSessionCall s.published =
      .error (.safetyViolation "Cannot start session while locked") := by
  have hsync := reachable_syncInv env s hreach
  have hinner : s.inner.status = .safetyLock := hsync.1 ▸ hpub
  have hflag : s.published.safety.isLocked = true := by
    rw [hsync.2.1]
    exact hsync.2.2 hinner
  have hmem : ∃ v ∈ (checkEvent s.safety (FfiKernelEvent.mk .startSession nowMs none)
      s.published).1.violations,
      v.specName = "safety_lock_immutable" ∧ v.severity = .critical := by
    refine ⟨⟨"safety_lock_immutable", "Cannot start session while safety locked",
      .critical, nowMs, some "Block event"⟩, ?_, rfl, rfl⟩
    simp only [checkEvent, List.mem_append]
    left
    left
    left
    right
    rw [spec2_fires s.published (FfiKernelEvent.mk .startSession nowMs none) hpub rfl]
    simp
  have hv := verify_false_of_critical s .startSession none nowMs
    (by
      obtain ⟨v, hm, _, hc⟩ := hmem
      exact ⟨v, hm, hc⟩)
  have hstep : (stepCmd env s .startSession nowMs).1.inner = s.inner := by
    simp [stepCmd, handleStart, hv, verifyCommand_inner]
  refine ⟨hmem, rfl, hstep, ?_, ?_⟩
  · rw [hstep, hinner]
    exact fun hc => FfiRuntimeStatus.noConfusion hc
  · unfold startSessionCall
    rw [hflag]
    rfl

/-- Witness for C2 at the concrete halted reachable state. -/
theorem c2_safety_lock_blocks_start_witness :
    (∃ v ∈ (checkEvent sHalt.safety (FfiKernelEvent.mk .startSession 9 none)
        sHalt.published).1.violations,
      v.specName = "safety_lock_immutable" ∧ v.severity = .critical) ∧
    (stepCmd env0 sHalt .startSession 9).1.inner = sHalt.inner ∧
    startSessionCall sHalt.published =
      .error (.safetyViolation "Cannot start session while locked") := by
  have hreach : Reachable env0 sHalt :=
    Reachable.stepC (initialState env0 "4-7-8") (.emergencyHalt "manual halt") 0
      (Reachable.init "4-7-8")
  have h := c2_safety_lock_blocks_start env0 sHalt 9 hreach rfl
  exact ⟨h.1, h.2.2.1, h.2.2.2.2⟩

end ZenB
